import Mathlib

/-!
# Callback: a heap-free callback holder (src/Callback.h, src/Callback.tpp)

Shallow embedding of the class template `Callback<RET, ARGS...>`.

* `σ` is the state of the surrounding program (the memory the callees read
  and write); a C++ callable of signature `RET (ARGS...)` is a function
  `ARGS → σ → RET × σ`.  `ARGS` stands for the whole argument pack.
* `void*` is an address (`Nat`, `0` is `nullptr`); a typed pointer `T*` is an
  address carrying the static type `T`, so `static_cast` between `T*` and
  `void*` keeps the address.
* A function pointer or pointer to member is an `Option`: `none` is `nullptr`.
* `RET()` is `default` of an `Inhabited RET`.
-/

namespace CallbackModel

/-- The type `void*`: an address, `0` being `nullptr`. -/
abbrev VoidPtr := Nat

/-- The type `T*`: an address together with its static pointee type. -/
structure Ptr (T : Type) where
  addr : VoidPtr
deriving DecidableEq

/-- The type `T&`: a reference is bound to an object, so its address is not
null. -/
structure Ref (T : Type) where
  addr : VoidPtr
  nonNull : addr ≠ 0

/-- The expression `&r` for a reference `r`. -/
def Ref.addressOf {T : Type} (r : Ref T) : Ptr T := ⟨r.addr⟩

/-- What a call made by `invoke` does: it returns a value and leaves a program
state, or it is a call through a pointer that does not designate a callee of
the type it is called at (undefined behaviour in C++). -/
inductive Outcome (σ RET : Type) where
  | returned (r : RET) (s : σ)
  | undefined
deriving DecidableEq

/-- Which `return` statement of `Callback::invoke` (Callback.tpp:95-103) was
taken. -/
inductive Path where
  /-- Line 96: `return _contextedMemberCaller(_p.object, _context, _member, args...)`. -/
  | contextedMember
  /-- Line 98: `return _contextFn(_context, args...)`. -/
  | contextFn
  /-- Line 100: `return _membercaller(_p.object, _member, args...)`. -/
  | member
  /-- Line 102: `return _p.function(args...)`. -/
  | function
  /-- Line 103: `return RET()`, no call is made. -/
  | noCall
deriving DecidableEq

/-- Result of one `invoke`: the `return` statement taken and what it did. -/
structure Invocation (σ RET : Type) where
  path : Path
  outcome : Outcome σ RET
deriving DecidableEq

section Types

variable (σ RET ARGS : Type)

/-- `using FunctionType = RET (*)(ARGS...)` (Callback.h:35). -/
abbrev FunctionType := Option (ARGS → σ → RET × σ)

/-- `RET (*)(TContext*, ARGS...)`: a static function taking a context. -/
abbrev ContextFunctionType (TContext : Type) :=
  Option (Ptr TContext → ARGS → σ → RET × σ)

/-- `RET (TObj::*)(ARGS...)`: a pointer to member function, applied to the
object it is called on. -/
abbrev MemberFnPtr (TObj : Type) := Option (Ptr TObj → ARGS → σ → RET × σ)

/-- `RET (TObj::*)(TContext*, ARGS...)`: a pointer to member function taking a
context, applied to the object and then the context. -/
abbrev ContextedMemberFnPtr (TContext TObj : Type) :=
  Option (Ptr TObj → Ptr TContext → ARGS → σ → RET × σ)

/-- The union `_p` (Callback.h:200-203): one pointer-sized storage, written
either through `_p.function` or through `_p.object`. -/
inductive PUnion where
  /-- Last written by `_p.function = fn`. -/
  | function (fn : FunctionType σ RET ARGS)
  /-- Last written by `_p.object = obj`. -/
  | object (obj : VoidPtr)

/-- The buffer `uintptr_t _member[2]` (Callback.h:205), by what was last
stored in it; the class types of a stored pointer to member are not kept. -/
inductive MemberBuf where
  /-- After `memset(_member, 0, sizeof(_member))`. -/
  | zeroed
  /-- After a `RET (TObj::*)(ARGS...)` was stored (Callback.tpp:75). -/
  | method (fn : Option (VoidPtr → ARGS → σ → RET × σ))
  /-- After a `RET (TObj::*)(TContext*, ARGS...)` was stored (Callback.tpp:87). -/
  | contextedMethod (fn : Option (VoidPtr → VoidPtr → ARGS → σ → RET × σ))

/-- The data members of `Callback<RET, ARGS...>` (Callback.h:199-209). -/
structure Callback where
  _p : PUnion σ RET ARGS
  _member : MemberBuf σ RET ARGS
  _membercaller : Option (VoidPtr → MemberBuf σ RET ARGS → ARGS → σ → Outcome σ RET)
  _contextFn : Option (VoidPtr → ARGS → σ → RET × σ)
  _contextedMemberCaller :
    Option (VoidPtr → VoidPtr → MemberBuf σ RET ARGS → ARGS → σ → Outcome σ RET)
  _context : VoidPtr

end Types

variable {σ RET ARGS : Type}

/-- The test `if (_p.function)` or `if (_p.object)`: both members name the
same storage, so either test asks whether the stored pointer is non-null. -/
def PUnion.isSet : PUnion σ RET ARGS → Bool
  | .function fn => fn.isSome
  | .object obj => obj != 0

/-- The store `*reinterpret_cast<RET (TObj::**)(ARGS...)>(_member) = fn`
(Callback.tpp:75). -/
def MemberBuf.storeMethod {TObj : Type} (fn : MemberFnPtr σ RET ARGS TObj) :
    MemberBuf σ RET ARGS :=
  .method (fn.map fun m o => m ⟨o⟩)

/-- The store `*reinterpret_cast<RET (TObj::**)(TContext*, ARGS...)>(_member) = fn`
(Callback.tpp:87). -/
def MemberBuf.storeContextedMethod {TContext TObj : Type}
    (fn : ContextedMemberFnPtr σ RET ARGS TContext TObj) : MemberBuf σ RET ARGS :=
  .contextedMethod (fn.map fun m o c => m ⟨o⟩ ⟨c⟩)

/-- The read `*reinterpret_cast<const MemberFnPtr*>(member)` with
`MemberFnPtr = RET (TObj::*)(ARGS...)` (Callback.tpp:117-118): the method to
call, `none` when the buffer holds no non-null pointer of that kind. -/
def MemberBuf.loadMethod (TObj : Type) :
    MemberBuf σ RET ARGS → Option (Ptr TObj → ARGS → σ → RET × σ)
  | .method (some m) => some fun o => m o.addr
  | _ => none

/-- The read `*reinterpret_cast<const MemberFnPtr*>(member)` with
`MemberFnPtr = RET (TObj::*)(TContext*, ARGS...)` (Callback.tpp:129-130). -/
def MemberBuf.loadContextedMethod (TContext TObj : Type) :
    MemberBuf σ RET ARGS → Option (Ptr TObj → Ptr TContext → ARGS → σ → RET × σ)
  | .contextedMethod (some m) => some fun o c => m o.addr c.addr
  | _ => none

namespace Callback

/-- The trampoline `Callback::membercaller<TObj>` (Callback.tpp:111-120). -/
def membercaller (TObj : Type) (object : VoidPtr) (member : MemberBuf σ RET ARGS)
    (args : ARGS) (s : σ) : Outcome σ RET :=
  let o : Ptr TObj := ⟨object⟩
  match member.loadMethod TObj with
  | some m => let r := m o args s; .returned r.1 r.2
  | none => .undefined

/-- The trampoline `Callback::contextedMemberCaller<TContext, TObj>`
(Callback.tpp:122-132). -/
def contextedMemberCaller (TContext TObj : Type) (object : VoidPtr) (context : VoidPtr)
    (member : MemberBuf σ RET ARGS) (args : ARGS) (s : σ) : Outcome σ RET :=
  let o : Ptr TObj := ⟨object⟩
  let c : Ptr TContext := ⟨context⟩
  match member.loadContextedMethod TContext TObj with
  | some m => let r := m o c args s; .returned r.1 r.2
  | none => .undefined

/-- The member `clear()` (Callback.tpp:145-153). -/
def clear (cb : Callback σ RET ARGS) : Callback σ RET ARGS :=
  { cb with
    _member := .zeroed
    _p := .function none
    _membercaller := none
    _contextFn := none
    _contextedMemberCaller := none
    _context := 0 }

/-- The overload `attach(FunctionType fn)` (Callback.tpp:53-60). -/
def attach (cb : Callback σ RET ARGS) (fn : FunctionType σ RET ARGS) :
    Callback σ RET ARGS :=
  { cb with
    _p := .function fn
    _membercaller := none
    _contextFn := none
    _contextedMemberCaller := none
    _context := 0 }

/-- The overload `attach(TContext* ctx, RET (*fn)(TContext*, ARGS...))`
(Callback.tpp:62-69). -/
def attachContextFn {TContext : Type} (cb : Callback σ RET ARGS) (ctx : Ptr TContext)
    (fn : ContextFunctionType σ RET ARGS TContext) : Callback σ RET ARGS :=
  { cb with
    _context := ctx.addr
    _contextFn := fn.map fun g c => g ⟨c⟩
    _membercaller := none
    _contextedMemberCaller := none }

/-- The overload `attach(TObj* obj, RET (TObj::*fn)(ARGS...))`
(Callback.tpp:71-80). -/
def attachMember {TObj : Type} (cb : Callback σ RET ARGS) (obj : Ptr TObj)
    (fn : MemberFnPtr σ RET ARGS TObj) : Callback σ RET ARGS :=
  { cb with
    _p := .object obj.addr
    _member := MemberBuf.storeMethod fn
    _membercaller := some (membercaller TObj)
    _contextFn := none
    _contextedMemberCaller := none
    _context := 0 }

/-- The overload
`attach(TContext* ctx, TObj* obj, RET (TObj::*fn)(TContext*, ARGS...))`
(Callback.tpp:82-91). -/
def attachContextedMember {TContext TObj : Type} (cb : Callback σ RET ARGS)
    (ctx : Ptr TContext) (obj : Ptr TObj)
    (fn : ContextedMemberFnPtr σ RET ARGS TContext TObj) : Callback σ RET ARGS :=
  { cb with
    _context := ctx.addr
    _p := .object obj.addr
    _member := MemberBuf.storeContextedMethod fn
    _contextedMemberCaller := some (contextedMemberCaller TContext TObj)
    _membercaller := none
    _contextFn := none }

/-- The call `d(_p.object, ...)` of a trampoline `d` on the object held in
`_p`: when `_p` was last written as a function pointer, the trampoline is
handed the bits of that function pointer as its object. -/
def callOnObject (p : PUnion σ RET ARGS) (d : VoidPtr → Outcome σ RET) : Outcome σ RET :=
  match p with
  | .object obj => d obj
  | .function _ => .undefined

/-- The call `_p.function(args...)` (Callback.tpp:102): when `_p` was last
written as an object pointer, the call jumps to the address of that object. -/
def callFunction (p : PUnion σ RET ARGS) (args : ARGS) (s : σ) : Outcome σ RET :=
  match p with
  | .function (some f) => let r := f args s; .returned r.1 r.2
  | _ => .undefined

/-- The member `invoke(ARGS... args) const` (Callback.tpp:93-104), run in
program state `s`. -/
def invoke [Inhabited RET] (cb : Callback σ RET ARGS) (args : ARGS) (s : σ) :
    Invocation σ RET :=
  match cb._contextedMemberCaller, cb._context != 0 && cb._p.isSet with
  | some d, true =>
    ⟨.contextedMember, callOnObject cb._p fun o => d o cb._context cb._member args s⟩
  | _, _ =>
  match cb._contextFn, cb._context != 0 with
  | some g, true => ⟨.contextFn, let r := g cb._context args s; .returned r.1 r.2⟩
  | _, _ =>
  match cb._membercaller, cb._p.isSet with
  | some d, true => ⟨.member, callOnObject cb._p fun o => d o cb._member args s⟩
  | _, _ =>
  if cb._p.isSet then ⟨.function, callFunction cb._p args s⟩
  else ⟨.noCall, .returned default s⟩

/-- The member `operator()(ARGS... args) const` (Callback.tpp:106-109). -/
def call [Inhabited RET] (cb : Callback σ RET ARGS) (args : ARGS) (s : σ) :
    Invocation σ RET :=
  cb.invoke args s

/-- The member `context<TContext>() const` (Callback.tpp:134-138). -/
def context (TContext : Type) (cb : Callback σ RET ARGS) : Ptr TContext :=
  ⟨cb._context⟩

/-- The member `valid() const` (Callback.tpp:140-143). -/
def valid (cb : Callback σ RET ARGS) : Bool :=
  cb._contextedMemberCaller.isSome || cb._contextFn.isSome || cb._membercaller.isSome
    || cb._p.isSet

/-- The constructor `Callback()` (Callback.tpp:7-10), run on an object whose
members hold `raw` (they are not initialised before the body runs). -/
def new (raw : Callback σ RET ARGS) : Callback σ RET ARGS :=
  raw.clear

/-- The constructor `Callback(FunctionType fn)` (Callback.tpp:12-15). -/
def newFunction (raw : Callback σ RET ARGS) (fn : FunctionType σ RET ARGS) :
    Callback σ RET ARGS :=
  raw.attach fn

/-- The constructor `Callback(TContext* ctx, RET (*fn)(TContext*, ARGS...))`
(Callback.tpp:17-21). -/
def newContextFn {TContext : Type} (raw : Callback σ RET ARGS) (ctx : Ptr TContext)
    (fn : ContextFunctionType σ RET ARGS TContext) : Callback σ RET ARGS :=
  raw.attachContextFn ctx fn

/-- The constructor `Callback(TContext& ctx, RET (*fn)(TContext*, ARGS...))`
(Callback.tpp:23-27). -/
def newContextFnRef {TContext : Type} (raw : Callback σ RET ARGS) (ctx : Ref TContext)
    (fn : ContextFunctionType σ RET ARGS TContext) : Callback σ RET ARGS :=
  raw.attachContextFn ctx.addressOf fn

/-- The constructor `Callback(TObj* obj, RET (TObj::*fn)(ARGS...))`
(Callback.tpp:29-33). -/
def newMember {TObj : Type} (raw : Callback σ RET ARGS) (obj : Ptr TObj)
    (fn : MemberFnPtr σ RET ARGS TObj) : Callback σ RET ARGS :=
  raw.attachMember obj fn

/-- The constructor `Callback(TObj& obj, RET (TObj::*fn)(ARGS...))`
(Callback.tpp:35-39). -/
def newMemberRef {TObj : Type} (raw : Callback σ RET ARGS) (obj : Ref TObj)
    (fn : MemberFnPtr σ RET ARGS TObj) : Callback σ RET ARGS :=
  raw.attachMember obj.addressOf fn

/-- The constructor
`Callback(TContext* ctx, TObj* obj, RET (TObj::*fn)(TContext*, ARGS...))`
(Callback.tpp:41-45). -/
def newContextedMember {TContext TObj : Type} (raw : Callback σ RET ARGS)
    (ctx : Ptr TContext) (obj : Ptr TObj)
    (fn : ContextedMemberFnPtr σ RET ARGS TContext TObj) : Callback σ RET ARGS :=
  raw.attachContextedMember ctx obj fn

/-- The constructor
`Callback(TContext& ctx, TObj& obj, RET (TObj::*fn)(TContext*, ARGS...))`
(Callback.tpp:47-51). -/
def newContextedMemberRef {TContext TObj : Type} (raw : Callback σ RET ARGS)
    (ctx : Ref TContext) (obj : Ref TObj)
    (fn : ContextedMemberFnPtr σ RET ARGS TContext TObj) : Callback σ RET ARGS :=
  raw.attachContextedMember ctx.addressOf obj.addressOf fn

/-- States reachable from a default-constructed callback by `attach` (any
overload, any arguments) and `clear` calls. -/
inductive Reachable : Callback σ RET ARGS → Prop where
  | new (raw : Callback σ RET ARGS) : Reachable (new raw)
  | attach {cb : Callback σ RET ARGS} (fn : FunctionType σ RET ARGS) :
      Reachable cb → Reachable (cb.attach fn)
  | attachContextFn {cb : Callback σ RET ARGS} {TContext : Type} (ctx : Ptr TContext)
      (fn : ContextFunctionType σ RET ARGS TContext) :
      Reachable cb → Reachable (cb.attachContextFn ctx fn)
  | attachMember {cb : Callback σ RET ARGS} {TObj : Type} (obj : Ptr TObj)
      (fn : MemberFnPtr σ RET ARGS TObj) :
      Reachable cb → Reachable (cb.attachMember obj fn)
  | attachContextedMember {cb : Callback σ RET ARGS} {TContext TObj : Type}
      (ctx : Ptr TContext) (obj : Ptr TObj)
      (fn : ContextedMemberFnPtr σ RET ARGS TContext TObj) :
      Reachable cb → Reachable (cb.attachContextedMember ctx obj fn)
  | clear {cb : Callback σ RET ARGS} : Reachable cb → Reachable cb.clear

/-- How many of the three trampoline or context-function slots are non-null:
`_contextedMemberCaller`, `_contextFn`, `_membercaller`. -/
def dispatchersSet (cb : Callback σ RET ARGS) : Nat :=
  cb._contextedMemberCaller.isSome.toNat + cb._contextFn.isSome.toNat
    + cb._membercaller.isSome.toNat

/-- How many of the four operands of `valid()` (Callback.tpp:142) are true. -/
def slotsSet (cb : Callback σ RET ARGS) : Nat :=
  cb.dispatchersSet + cb._p.isSet.toNat

/-- One call of a member that changes the callback: `Step cb cb1` when `cb1`
is `cb` after an `attach` (any overload, any arguments) or `clear()`. -/
inductive Step : Callback σ RET ARGS → Callback σ RET ARGS → Prop where
  | attach (cb : Callback σ RET ARGS) (fn : FunctionType σ RET ARGS) :
      Step cb (cb.attach fn)
  | attachContextFn (cb : Callback σ RET ARGS) {TContext : Type} (ctx : Ptr TContext)
      (fn : ContextFunctionType σ RET ARGS TContext) :
      Step cb (cb.attachContextFn ctx fn)
  | attachMember (cb : Callback σ RET ARGS) {TObj : Type} (obj : Ptr TObj)
      (fn : MemberFnPtr σ RET ARGS TObj) :
      Step cb (cb.attachMember obj fn)
  | attachContextedMember (cb : Callback σ RET ARGS) {TContext TObj : Type}
      (ctx : Ptr TContext) (obj : Ptr TObj)
      (fn : ContextedMemberFnPtr σ RET ARGS TContext TObj) :
      Step cb (cb.attachContextedMember ctx obj fn)
  | clear (cb : Callback σ RET ARGS) : Step cb cb.clear

/-- The callbacks a constructor can produce, from any contents `raw` of the
members before the constructor body runs. -/
inductive Constructed : Callback σ RET ARGS → Prop where
  | new (raw : Callback σ RET ARGS) : Constructed (new raw)
  | newFunction (raw : Callback σ RET ARGS) (fn : FunctionType σ RET ARGS) :
      Constructed (newFunction raw fn)
  | newContextFn (raw : Callback σ RET ARGS) {TContext : Type} (ctx : Ptr TContext)
      (fn : ContextFunctionType σ RET ARGS TContext) :
      Constructed (newContextFn raw ctx fn)
  | newContextFnRef (raw : Callback σ RET ARGS) {TContext : Type} (ctx : Ref TContext)
      (fn : ContextFunctionType σ RET ARGS TContext) :
      Constructed (newContextFnRef raw ctx fn)
  | newMember (raw : Callback σ RET ARGS) {TObj : Type} (obj : Ptr TObj)
      (fn : MemberFnPtr σ RET ARGS TObj) :
      Constructed (newMember raw obj fn)
  | newMemberRef (raw : Callback σ RET ARGS) {TObj : Type} (obj : Ref TObj)
      (fn : MemberFnPtr σ RET ARGS TObj) :
      Constructed (newMemberRef raw obj fn)
  | newContextedMember (raw : Callback σ RET ARGS) {TContext TObj : Type}
      (ctx : Ptr TContext) (obj : Ptr TObj)
      (fn : ContextedMemberFnPtr σ RET ARGS TContext TObj) :
      Constructed (newContextedMember raw ctx obj fn)
  | newContextedMemberRef (raw : Callback σ RET ARGS) {TContext TObj : Type}
      (ctx : Ref TContext) (obj : Ref TObj)
      (fn : ContextedMemberFnPtr σ RET ARGS TContext TObj) :
      Constructed (newContextedMemberRef raw ctx obj fn)

/-- States a callback can be in: built by any constructor, then changed by any
sequence of `attach` and `clear` calls. -/
inductive Built : Callback σ RET ARGS → Prop where
  | constructed {cb : Callback σ RET ARGS} : Constructed cb → Built cb
  | step {cb cb1 : Callback σ RET ARGS} : Built cb → Step cb cb1 → Built cb1

end Callback

/-! ## The scenarios of the specification (section 8) -/

namespace Scenario

/-- Program memory of the scenarios: the `int` stored at each address. -/
abbrev Mem := List Int

/-- The scenario function `int add1(int x){return x+1;}`. -/
def add1 (x : Int) (s : Mem) : Int × Mem := (x + 1, s)

/-- The class of the scenario object `Counter c`; its field `n` is the `int`
at the address of the object. -/
structure Counter where

/-- The scenario method `int bump(){return ++n;}`. -/
def Counter.bump (this : Ptr Counter) (_ : Unit) (s : Mem) : Int × Mem :=
  (s.getD this.addr 0 + 1, s.set this.addr (s.getD this.addr 0 + 1))

/-- The scenario function `int addBase(int* ctx,int x){return *ctx+x;}`. -/
def addBase (ctx : Ptr Int) (x : Int) (s : Mem) : Int × Mem := (s.getD ctx.addr 0 + x, s)

/-- A method taking a context, for the contexted-member binding:
`int bumpBy(int* ctx){ n += *ctx; return n; }` on `Counter`. -/
def Counter.bumpBy (this : Ptr Counter) (ctx : Ptr Int) (_ : Unit) (s : Mem) : Int × Mem :=
  (s.getD this.addr 0 + s.getD ctx.addr 0,
    s.set this.addr (s.getD this.addr 0 + s.getD ctx.addr 0))

/-- Some callback object before its constructor ran: every member zero. -/
def raw (ARGS : Type) : Callback Mem Int ARGS :=
  { _p := .object 0, _member := .zeroed, _membercaller := none, _contextFn := none,
    _contextedMemberCaller := none, _context := 0 }

/-- Address of the scenario object `Counter c`. -/
def c : Ptr Counter := ⟨1⟩

/-- Address of the scenario context `int base`. -/
def base : Ptr Int := ⟨2⟩

/-- Memory at the start of the scenarios: `c.n = 0` and `base = 10`. -/
def mem0 : Mem := [0, 0, 10]

/-- A function of signature `int ()` returning 3. -/
def three (_ : Unit) (s : Mem) : Int × Mem := (3, s)

/-- A function of signature `int (void*)` returning 7. -/
def seven (_ : VoidPtr) (_ : Unit) (s : Mem) : Int × Mem := (7, s)

/-- A function taking a context and no further argument:
`int readBase(int* ctx){return *ctx;}`. -/
def readBase (ctx : Ptr Int) (_ : Unit) (s : Mem) : Int × Mem := (s.getD ctx.addr 0, s)

/-- A null `int*`. -/
def nullInt : Ptr Int := ⟨0⟩

/-- A null `Counter*`. -/
def nullCounter : Ptr Counter := ⟨0⟩

/-- The reference `int& base`. -/
def baseRef : Ref Int := ⟨2, by decide⟩

/-- Storage of a callback object before its constructor ran, where the bytes
of `_p` are not zero: they hold what an earlier `attach(add1)` wrote there. -/
def stale : Callback Mem Int Int :=
  { _p := .function (some add1), _member := .zeroed, _membercaller := none,
    _contextFn := none, _contextedMemberCaller := none, _context := 0 }

/-- An assignment of the fields that no sequence of calls produces: all three
dispatchers are set at once, with the given `_context` and `_p`. -/
def allSet (context : VoidPtr) (p : PUnion Mem Int Unit) : Callback Mem Int Unit :=
  { _p := p
    _member := MemberBuf.storeContextedMethod (some Counter.bumpBy)
    _membercaller := some (Callback.membercaller Counter)
    _contextFn := some seven
    _contextedMemberCaller := some (Callback.contextedMemberCaller Int Counter)
    _context := context }

end Scenario

end CallbackModel

/-! ## Theorems -/

namespace CallbackModel

open Callback Scenario

variable {σ RET ARGS : Type}

/-- C1: whatever the callback held before, after `attach(f)` with a non-null
free function `f`, `valid()` is true and `invoke(args)` takes the
plain-function return and yields exactly the result (and final state) of
`f(args)`; with `f = add1`, `invoke(4)` returns 5. -/
theorem attach_function_invoke [Inhabited RET] :
    (∀ (cb : Callback σ RET ARGS) (f : ARGS → σ → RET × σ) (args : ARGS) (s : σ),
      (cb.attach (some f)).valid = true ∧
      (cb.attach (some f)).invoke args s = ⟨.function, .returned (f args s).1 (f args s).2⟩) ∧
    ((raw Int).attach (some add1)).invoke 4 mem0 = ⟨.function, .returned 5 mem0⟩ := by
  refine ⟨fun cb f args s => ⟨?_, ?_⟩, by decide⟩
  · simp [valid, attach, PUnion.isSet]
  · simp [invoke, attach, PUnion.isSet, callFunction]

/-- C2: whatever the callback held before, after `attach(obj, m)` with a
non-null object `obj` and a method `m`, `valid()` is true, the method the
member trampoline reads back from the buffer is exactly `m`, and
`invoke(args)` takes the member return and yields the result of calling `m`
on `obj` with `args`. -/
theorem attach_member_invoke [Inhabited RET] {TObj : Type} (cb : Callback σ RET ARGS)
    (obj : Ptr TObj) (m : Ptr TObj → ARGS → σ → RET × σ) (hobj : obj.addr ≠ 0)
    (args : ARGS) (s : σ) :
    (cb.attachMember obj (some m)).valid = true ∧
    (cb.attachMember obj (some m))._member.loadMethod TObj = some m ∧
    (cb.attachMember obj (some m)).invoke args s
      = ⟨.member, .returned (m obj args s).1 (m obj args s).2⟩ := by
  have hset : (obj.addr != 0) = true := by simpa using hobj
  refine ⟨?_, ?_, ?_⟩
  · simp [valid, attachMember]
  · simp [attachMember, MemberBuf.storeMethod, MemberBuf.loadMethod]
  · simp [invoke, attachMember, PUnion.isSet, hset, callOnObject, membercaller,
      MemberBuf.storeMethod, MemberBuf.loadMethod]

/-- C2, scenario: `Counter::bump` attached to a counter starting at 0; two
invokes return 1 then 2. -/
theorem attach_member_invoke_counter :
    c.addr ≠ 0 ∧
    ((raw Unit).attachMember c (some Counter.bump)).invoke () mem0
      = ⟨.member, .returned 1 [0, 1, 10]⟩ ∧
    ((raw Unit).attachMember c (some Counter.bump)).invoke () [0, 1, 10]
      = ⟨.member, .returned 2 [0, 2, 10]⟩ :=
  ⟨by decide,
   (attach_member_invoke (raw Unit) c Counter.bump (by decide) () mem0).2.2,
   (attach_member_invoke (raw Unit) c Counter.bump (by decide) () [0, 1, 10]).2.2⟩

/-- C3: whatever the callback held before, after `attach(ctx, g)` with a
non-null context `ctx` and a non-null function `g` taking (context, args),
`invoke(args)` takes the context-function return and yields the result of
`g(ctx, args)`, and `context<TContext>()` returns `ctx`. -/
theorem attach_context_invoke [Inhabited RET] {TContext : Type} (cb : Callback σ RET ARGS)
    (ctx : Ptr TContext) (g : Ptr TContext → ARGS → σ → RET × σ) (hctx : ctx.addr ≠ 0)
    (args : ARGS) (s : σ) :
    (cb.attachContextFn ctx (some g)).invoke args s
      = ⟨.contextFn, .returned (g ctx args s).1 (g ctx args s).2⟩ ∧
    (cb.attachContextFn ctx (some g)).context TContext = ctx := by
  have hset : (ctx.addr != 0) = true := by simpa using hctx
  refine ⟨?_, ?_⟩
  · simp [invoke, attachContextFn, hset]
  · simp [context, attachContextFn]

/-- C3, scenario: the context points to `base = 10`, `g = addBase`;
`invoke(5)` returns 15. -/
theorem attach_context_invoke_addBase :
    base.addr ≠ 0 ∧
    ((raw Int).attachContextFn base (some addBase)).invoke 5 mem0
      = ⟨.contextFn, .returned 15 mem0⟩ ∧
    ((raw Int).attachContextFn base (some addBase)).context Int = base :=
  ⟨by decide, attach_context_invoke (raw Int) base addBase (by decide) 5 mem0⟩

/-- C4: whatever the callback held before, after `attach(ctx, obj, m)` with a
non-null context `ctx`, a non-null object `obj` and a method `m` taking
(context, args), `invoke(args)` takes the contexted-member return and yields
the result of calling `m` on `obj` with `ctx` followed by `args`, and
`context<TContext>()` returns `ctx`. -/
theorem attach_contexted_member_invoke [Inhabited RET] {TContext TObj : Type}
    (cb : Callback σ RET ARGS) (ctx : Ptr TContext) (obj : Ptr TObj)
    (m : Ptr TObj → Ptr TContext → ARGS → σ → RET × σ)
    (hctx : ctx.addr ≠ 0) (hobj : obj.addr ≠ 0) (args : ARGS) (s : σ) :
    (cb.attachContextedMember ctx obj (some m)).invoke args s
      = ⟨.contextedMember, .returned (m obj ctx args s).1 (m obj ctx args s).2⟩ ∧
    (cb.attachContextedMember ctx obj (some m)).context TContext = ctx := by
  have hc : (ctx.addr != 0) = true := by simpa using hctx
  have ho : (obj.addr != 0) = true := by simpa using hobj
  refine ⟨?_, ?_⟩
  · simp [invoke, attachContextedMember, PUnion.isSet, hc, ho, callOnObject,
      contextedMemberCaller, MemberBuf.storeContextedMethod, MemberBuf.loadContextedMethod]
  · simp [context, attachContextedMember]

/-- C4, instance: `Counter::bumpBy` attached to the counter `c` with the
context `base = 10`; `invoke()` returns 10 and leaves `c.n = 10`. -/
theorem attach_contexted_member_invoke_counter :
    base.addr ≠ 0 ∧ c.addr ≠ 0 ∧
    ((raw Unit).attachContextedMember base c (some Counter.bumpBy)).invoke () mem0
      = ⟨.contextedMember, .returned 10 [0, 10, 10]⟩ ∧
    ((raw Unit).attachContextedMember base c (some Counter.bumpBy)).context Int = base :=
  ⟨by decide, by decide,
   attach_contexted_member_invoke (raw Unit) base c Counter.bumpBy (by decide) (by decide)
     () mem0⟩

/-- C5: a default-constructed callback is Empty: `valid()` is false,
`context<TContext>()` is null, and `invoke(args)` takes the last return, which
makes no call, yields `RET()` and leaves the program state as it was. -/
theorem default_constructed_empty [Inhabited RET] (raw : Callback σ RET ARGS)
    (TContext : Type) (args : ARGS) (s : σ) :
    (new raw).valid = false ∧
    (new raw).context TContext = ⟨0⟩ ∧
    (new raw).invoke args s = ⟨.noCall, .returned default s⟩ := by
  refine ⟨?_, ?_, ?_⟩
  · simp [valid, new, clear, PUnion.isSet]
  · simp [context, new, clear]
  · simp [invoke, new, clear, PUnion.isSet]

/-- C6: for every state `cb` of the fields, `clear()` yields exactly the
default-constructed state (every pointer null, the method buffer zeroed), so
`valid()` is false and `invoke(args)` makes no call and yields `RET()`; for
`RET = int` an attached then cleared callback returns 0. -/
theorem clear_is_empty [Inhabited RET] :
    (∀ (cb raw : Callback σ RET ARGS) (args : ARGS) (s : σ),
      cb.clear = new raw ∧
      cb.clear = ⟨.function none, .zeroed, none, none, none, 0⟩ ∧
      cb.clear.valid = false ∧
      cb.clear.invoke args s = ⟨.noCall, .returned default s⟩) ∧
    ((raw Int).attach (some add1)).clear.valid = false ∧
    ((raw Int).attach (some add1)).clear.invoke 4 mem0 = ⟨.noCall, .returned 0 mem0⟩ := by
  refine ⟨fun cb raw args s => ⟨?_, ?_, ?_, ?_⟩, by decide, by decide⟩
  · simp [new, clear]
  · simp [clear]
  · simp [valid, clear, PUnion.isSet]
  · simp [invoke, clear, PUnion.isSet]

/-- The overloads `attach(fn)`, `attach(obj, m)` and `attach(ctx, obj, m)`
leave nothing of the prior state for `valid()`, `context<T>()` or `invoke` to
read: the results are the same from any two prior states. -/
theorem attach_others_replace [Inhabited RET] {TContext TObj : Type}
    (cb cb0 : Callback σ RET ARGS) (T : Type) (args : ARGS) (s : σ) :
    (∀ fn : FunctionType σ RET ARGS,
      (cb.attach fn).valid = (cb0.attach fn).valid ∧
      (cb.attach fn).context T = (cb0.attach fn).context T ∧
      (cb.attach fn).invoke args s = (cb0.attach fn).invoke args s) ∧
    (∀ (obj : Ptr TObj) (fn : MemberFnPtr σ RET ARGS TObj),
      cb.attachMember obj fn = cb0.attachMember obj fn) ∧
    (∀ (ctx : Ptr TContext) (obj : Ptr TObj)
      (fn : ContextedMemberFnPtr σ RET ARGS TContext TObj),
      cb.attachContextedMember ctx obj fn = cb0.attachContextedMember ctx obj fn) := by
  refine ⟨fun fn => ⟨?_, ?_, ?_⟩, fun obj fn => ?_, fun ctx obj fn => ?_⟩
  · simp [valid, attach]
  · simp [context, attach]
  · simp [invoke, attach]
  · simp [attachMember]
  · simp [attachContextedMember]

/-- C7: the context-function overload of `attach` does not replace a prior
binding, since it leaves `_p` as it was.  After `attach(add1)`, a second
`attach(ctx, addBase)` with a null `ctx` makes `invoke(4)` call the earlier
`add1` and return 5, where the same attach on an Empty callback makes
`invoke(4)` return 0 without a call; and a second `attach(&base, nullptr)`
leaves `valid()` true and `invoke(4)` calling `add1`, where on an Empty
callback `valid()` is false and no call is made. -/
theorem attach_context_keeps_prior_function :
    (((new (raw Int)).attach (some add1)).attachContextFn (⟨0⟩ : Ptr Int) (some addBase)).invoke
        4 mem0 = ⟨.function, .returned 5 mem0⟩ ∧
    ((new (raw Int)).attachContextFn (⟨0⟩ : Ptr Int) (some addBase)).invoke 4 mem0
      = ⟨.noCall, .returned 0 mem0⟩ ∧
    (((new (raw Int)).attach (some add1)).attachContextFn base none).valid = true ∧
    (((new (raw Int)).attach (some add1)).attachContextFn base none).invoke 4 mem0
      = ⟨.function, .returned 5 mem0⟩ ∧
    ((new (raw Int)).attachContextFn base none).valid = false ∧
    ((new (raw Int)).attachContextFn base none).invoke 4 mem0
      = ⟨.noCall, .returned 0 mem0⟩ := by
  decide

/-- C8, as stated, fails: after `attach(&c, &Counter::bump)` on a
default-constructed callback, two of the four operands of `valid()` are set,
the member dispatcher and the storage `_p` that `_p.function` names (it holds
the object). -/
theorem member_binding_sets_two_slots :
    Reachable ((new (raw Unit)).attachMember c (some Counter.bump)) ∧
    ((new (raw Unit)).attachMember c (some Counter.bump)).slotsSet = 2 ∧
    ¬ ((new (raw Unit)).attachMember c (some Counter.bump)).slotsSet ≤ 1 :=
  ⟨.attachMember _ _ (.new _), by decide, by decide⟩

/-- C8, amended: in every state reachable from a default-constructed callback
by `attach` (any overload, any arguments) and `clear` calls, at most one of
the three dispatchers (contexted-member, context-function, member) is set.
The fourth operand of `valid()`, `_p.function`, names the storage shared with
`_p.object`: whenever the member dispatcher is set, the state is exactly the
one written by the last `attach(obj, fn)`, with `_p` holding the address of
that `obj`, and whenever the contexted-member dispatcher is set, it is exactly
the one written by the last `attach(ctx, obj, fn)`, with `_p` holding the
address of that `obj` and `_context` that `ctx`.  In both cases the number of
operands of `valid()` that are set is one plus the non-null test of `_p`: two
when the object of the binding is non-null, one when it is null. -/
theorem reachable_single_dispatcher {cb : Callback σ RET ARGS} (h : Reachable cb) :
    cb.dispatchersSet ≤ 1 ∧
    (cb._membercaller.isSome = true →
      ∃ (TObj : Type) (obj : Ptr TObj) (fn : MemberFnPtr σ RET ARGS TObj)
        (cb0 : Callback σ RET ARGS),
        Reachable cb0 ∧ cb = cb0.attachMember obj fn ∧
        cb = ⟨.object obj.addr, MemberBuf.storeMethod fn, some (membercaller TObj), none,
          none, 0⟩ ∧
        (obj.addr ≠ 0 → cb.slotsSet = 2) ∧ (obj.addr = 0 → cb.slotsSet = 1)) ∧
    (cb._contextedMemberCaller.isSome = true →
      ∃ (TContext TObj : Type) (ctx : Ptr TContext) (obj : Ptr TObj)
        (fn : ContextedMemberFnPtr σ RET ARGS TContext TObj) (cb0 : Callback σ RET ARGS),
        Reachable cb0 ∧ cb = cb0.attachContextedMember ctx obj fn ∧
        cb = ⟨.object obj.addr, MemberBuf.storeContextedMethod fn, none, none,
          some (contextedMemberCaller TContext TObj), ctx.addr⟩ ∧
        (obj.addr ≠ 0 → cb.slotsSet = 2) ∧ (obj.addr = 0 → cb.slotsSet = 1)) ∧
    (cb._membercaller.isSome = true ∨ cb._contextedMemberCaller.isSome = true →
      cb.slotsSet = 1 + cb._p.isSet.toNat) := by
  cases h with
  | new raw => simp [dispatchersSet, new, clear]
  | attach fn _ => simp [dispatchersSet, attach]
  | attachContextFn ctx fn _ =>
    simp only [dispatchersSet, attachContextFn]
    cases fn <;> simp
  | @attachMember cb0 TObj obj fn h0 =>
    refine ⟨by simp [dispatchersSet, attachMember], fun _ => ?_, ?_, ?_⟩
    · refine ⟨TObj, obj, fn, cb0, h0, rfl, rfl, fun hobj => ?_, fun hobj => ?_⟩
      · have hset : (obj.addr != 0) = true := by simpa using hobj
        simp [slotsSet, dispatchersSet, attachMember, PUnion.isSet, hset]
      · simp [slotsSet, dispatchersSet, attachMember, PUnion.isSet, hobj]
    · simp [attachMember]
    · intro _
      simp [slotsSet, dispatchersSet, attachMember]
  | @attachContextedMember cb0 TContext TObj ctx obj fn h0 =>
    refine ⟨by simp [dispatchersSet, attachContextedMember], ?_, fun _ => ?_, ?_⟩
    · simp [attachContextedMember]
    · refine ⟨TContext, TObj, ctx, obj, fn, cb0, h0, rfl, rfl, fun hobj => ?_, fun hobj => ?_⟩
      · have hset : (obj.addr != 0) = true := by simpa using hobj
        simp [slotsSet, dispatchersSet, attachContextedMember, PUnion.isSet, hset]
      · simp [slotsSet, dispatchersSet, attachContextedMember, PUnion.isSet, hobj]
    · intro _
      simp [slotsSet, dispatchersSet, attachContextedMember]
  | clear _ => simp [dispatchersSet, clear]

/-- C8, amended, instances: after `attach(&c, &Counter::bump)` on a
default-constructed callback one dispatcher and two operands of `valid()` are
set, and `_p` holds the address of `c`; the same after
`attach(&base, &c, &Counter::bumpBy)`, where `_context` holds the address of
`base`; after `attach(obj, &Counter::bump)` with a null `obj` one dispatcher
and one operand are set. -/
theorem reachable_single_dispatcher_counter :
    (((new (raw Unit)).attachMember c (some Counter.bump)).dispatchersSet ≤ 1 ∧
      ((new (raw Unit)).attachMember c (some Counter.bump)).slotsSet = 2 ∧
      ((new (raw Unit)).attachMember c (some Counter.bump))._p = .object 1) ∧
    (((new (raw Unit)).attachContextedMember base c (some Counter.bumpBy)).dispatchersSet ≤ 1 ∧
      ((new (raw Unit)).attachContextedMember base c (some Counter.bumpBy)).slotsSet = 2 ∧
      ((new (raw Unit)).attachContextedMember base c (some Counter.bumpBy))._p = .object 1 ∧
      ((new (raw Unit)).attachContextedMember base c (some Counter.bumpBy))._context = 2) ∧
    (((new (raw Unit)).attachMember nullCounter (some Counter.bump)).dispatchersSet ≤ 1 ∧
      ((new (raw Unit)).attachMember nullCounter (some Counter.bump)).slotsSet = 1) := by
  have hm := reachable_single_dispatcher
    (Reachable.attachMember c (some Counter.bump) (Reachable.new (raw Unit)))
  have hc := reachable_single_dispatcher
    (Reachable.attachContextedMember base c (some Counter.bumpBy) (Reachable.new (raw Unit)))
  have hn := reachable_single_dispatcher
    (Reachable.attachMember nullCounter (some Counter.bump) (Reachable.new (raw Unit)))
  refine ⟨⟨hm.1, ?_, rfl⟩, ⟨hc.1, ?_, rfl, rfl⟩, ⟨hn.1, ?_⟩⟩
  · obtain ⟨T, obj, fn, cb0, _, _, hrec, h2, _⟩ := hm.2.1 rfl
    have hp := congrArg Callback._p hrec
    have haddr : obj.addr = 1 := by
      simp only [attachMember] at hp
      injection hp with hp
      exact hp.symm
    exact h2 (by rw [haddr]; exact Nat.one_ne_zero)
  · obtain ⟨TC, T, ctx, obj, fn, cb0, _, _, hrec, h2, _⟩ := hc.2.2.1 rfl
    have hp := congrArg Callback._p hrec
    have haddr : obj.addr = 1 := by
      simp only [attachContextedMember] at hp
      injection hp with hp
      exact hp.symm
    exact h2 (by rw [haddr]; exact Nat.one_ne_zero)
  · exact (hn.2.2.2 (Or.inl rfl)).trans rfl

/-- C9: for every assignment of the fields and every `args`, `invoke` follows
the fixed precedence, first match wins: (1) the contexted-member dispatcher is
called on the object, the context, the buffer and `args` when it, the context
and the object are all set; (2) else the context function is called on the
context and `args` when it and the context are set; (3) else the member
dispatcher is called on the object, the buffer and `args` when it and the
object are set; (4) else the plain function is called on `args` when it is
set; (5) else `RET()` is returned, no call is made and the program state is
unchanged. -/
theorem invoke_precedence [Inhabited RET] (cb : Callback σ RET ARGS) (args : ARGS) (s : σ) :
    (∀ d, cb._contextedMemberCaller = some d → cb._context ≠ 0 → cb._p.isSet = true →
      (cb.invoke args s).path = .contextedMember ∧
      ∀ obj, cb._p = .object obj →
        (cb.invoke args s).outcome = d obj cb._context cb._member args s) ∧
    (¬ (cb._contextedMemberCaller.isSome = true ∧ cb._context ≠ 0 ∧ cb._p.isSet = true) →
      ∀ g, cb._contextFn = some g → cb._context ≠ 0 →
        cb.invoke args s
          = ⟨.contextFn, .returned (g cb._context args s).1 (g cb._context args s).2⟩) ∧
    (¬ (cb._contextedMemberCaller.isSome = true ∧ cb._context ≠ 0 ∧ cb._p.isSet = true) →
      ¬ (cb._contextFn.isSome = true ∧ cb._context ≠ 0) →
      ∀ d, cb._membercaller = some d → cb._p.isSet = true →
        (cb.invoke args s).path = .member ∧
        ∀ obj, cb._p = .object obj → (cb.invoke args s).outcome = d obj cb._member args s) ∧
    (¬ (cb._contextedMemberCaller.isSome = true ∧ cb._context ≠ 0 ∧ cb._p.isSet = true) →
      ¬ (cb._contextFn.isSome = true ∧ cb._context ≠ 0) →
      ¬ (cb._membercaller.isSome = true ∧ cb._p.isSet = true) →
      cb._p.isSet = true →
        (cb.invoke args s).path = .function ∧
        ∀ f, cb._p = .function (some f) →
          (cb.invoke args s).outcome = .returned (f args s).1 (f args s).2) ∧
    (¬ (cb._contextedMemberCaller.isSome = true ∧ cb._context ≠ 0 ∧ cb._p.isSet = true) →
      ¬ (cb._contextFn.isSome = true ∧ cb._context ≠ 0) →
      ¬ (cb._membercaller.isSome = true ∧ cb._p.isSet = true) →
      ¬ cb._p.isSet = true →
        cb.invoke args s = ⟨.noCall, .returned default s⟩) := by
  obtain ⟨p, member, mc, cf, cmc, ctx⟩ := cb
  have e : (ctx ≠ 0) = ((ctx != 0) = true) := by simp
  simp only [e, invoke]
  generalize (ctx != 0) = b1
  refine ⟨?_, ?_, ?_, ?_, ?_⟩
  · intro d hd hctx hp
    subst hd hctx
    refine ⟨by simp [hp], ?_⟩
    intro obj hobj
    subst hobj
    simp [hp, callOnObject]
  · intro h1 g hg hctx
    subst hg hctx
    generalize p.isSet = b2 at h1 ⊢
    cases cmc <;> cases b2 <;> simp_all
  · intro h1 h2 d hd hp
    subst hd
    rw [hp] at h1 ⊢
    cases cmc <;> cases cf <;> cases b1 <;> simp at h1 h2 ⊢ <;>
      (intro obj hobj; subst hobj; simp [callOnObject])
  · intro h1 h2 h3 hp
    rw [hp] at h1 h3 ⊢
    cases cmc <;> cases cf <;> cases mc <;> cases b1 <;> simp at h1 h2 h3 ⊢ <;>
      (intro f hf; subst hf; simp [callFunction])
  · intro h1 h2 h3 hp
    have hp0 : p.isSet = false := by simpa using hp
    rw [hp0] at h1 h3 ⊢
    cases cmc <;> cases cf <;> cases mc <;> cases b1 <;> simp at h1 h2 h3 ⊢

/-- C9, instances: with all three dispatchers set, `invoke` takes the
contexted-member return when context and object are set, the context-function
return when only the object is null, the member return when only the context
is null; with the member dispatcher null as well it calls the plain function,
and with nothing usable it returns `RET()`. -/
theorem invoke_precedence_allSet :
    ((allSet 2 (.object 1)).invoke () mem0).path = .contextedMember ∧
    (allSet 2 (.object 0)).invoke () mem0 = ⟨.contextFn, .returned 7 mem0⟩ ∧
    ((allSet 0 (.object 1)).invoke () mem0).path = .member ∧
    (({ allSet 0 (.function (some three)) with _membercaller := none }).invoke () mem0).outcome
      = .returned 3 mem0 ∧
    (allSet 0 (.function none)).invoke () mem0 = ⟨.noCall, .returned 0 mem0⟩ :=
  ⟨((invoke_precedence (allSet 2 (.object 1)) () mem0).1 _ rfl (by decide) (by decide)).1,
   (invoke_precedence (allSet 2 (.object 0)) () mem0).2.1 (by decide) _ rfl (by decide),
   ((invoke_precedence (allSet 0 (.object 1)) () mem0).2.2.1 (by decide) (by decide) _ rfl
      (by decide)).1,
   ((invoke_precedence { allSet 0 (.function (some three)) with _membercaller := none } ()
      mem0).2.2.2.1 (by decide) (by decide) (by decide) (by decide)).2 three rfl,
   (invoke_precedence (allSet 0 (.function none)) () mem0).2.2.2.2 (by decide) (by decide)
      (by decide) (by decide)⟩

/-- C10: `context<TContext>()` returns the context given to the most recent
attach when that was a context-function or a contexted-member attach (any
function, object or method, null included), and returns null on a
default-constructed callback, after `clear()`, after `attach(function)` and
after `attach(object, method)`, whatever the prior state was. -/
theorem context_after_attach {TContext TObj : Type} (cb : Callback σ RET ARGS) :
    (∀ (ctx : Ptr TContext) (fn : ContextFunctionType σ RET ARGS TContext),
      (cb.attachContextFn ctx fn).context TContext = ctx) ∧
    (∀ (ctx : Ptr TContext) (obj : Ptr TObj)
      (fn : ContextedMemberFnPtr σ RET ARGS TContext TObj),
      (cb.attachContextedMember ctx obj fn).context TContext = ctx) ∧
    (new cb).context TContext = ⟨0⟩ ∧
    cb.clear.context TContext = ⟨0⟩ ∧
    (∀ fn : FunctionType σ RET ARGS, (cb.attach fn).context TContext = ⟨0⟩) ∧
    (∀ (obj : Ptr TObj) (fn : MemberFnPtr σ RET ARGS TObj),
      (cb.attachMember obj fn).context TContext = ⟨0⟩) := by
  refine ⟨fun ctx fn => ?_, fun ctx obj fn => ?_, ?_, ?_, fun fn => ?_, fun obj fn => ?_⟩
  · simp [context, attachContextFn]
  · simp [context, attachContextedMember]
  · simp [context, new, clear]
  · simp [context, clear]
  · simp [context, attach]
  · simp [context, attachMember]

/-- C11: whatever the callback held before, `attach(fn)` with a null `fn` is
accepted and leaves a no-op: `valid()` is false and `invoke(args)` makes no
call, yields `RET()` and leaves the program state as it was. -/
theorem attach_null_function [Inhabited RET] (cb : Callback σ RET ARGS) (args : ARGS)
    (s : σ) :
    (cb.attach none).valid = false ∧
    (cb.attach none).invoke args s = ⟨.noCall, .returned default s⟩ := by
  refine ⟨?_, ?_⟩
  · simp [valid, attach, PUnion.isSet]
  · simp [invoke, attach, PUnion.isSet]

/-- For every assignment of the fields, an `invoke` that makes a call does so
on a callback that `valid()` accepts. -/
theorem invoke_call_valid [Inhabited RET] (cb : Callback σ RET ARGS) (args : ARGS) (s : σ)
    (h : (cb.invoke args s).path ≠ .noCall) : cb.valid = true := by
  obtain ⟨p, member, mc, cf, cmc, ctx⟩ := cb
  simp only [invoke, valid] at h ⊢
  generalize (ctx != 0) = b1 at h
  generalize p.isSet = b2 at h ⊢
  cases cmc <;> cases cf <;> cases mc <;> cases b1 <;> cases b2 <;> simp at h ⊢

/-- C12: `valid()` is true in reachable states where `invoke` makes no call.
After `attach(obj, &Counter::bump)` with a null `obj` on a default-constructed
callback, `valid()` is true (the member dispatcher is set) while `invoke()`
returns `RET()` without a call; the same after `attach(ctx, readBase)` with a
null `ctx`. -/
theorem valid_without_call :
    Reachable ((new (raw Unit)).attachMember nullCounter (some Counter.bump)) ∧
    ((new (raw Unit)).attachMember nullCounter (some Counter.bump)).valid = true ∧
    ((new (raw Unit)).attachMember nullCounter (some Counter.bump)).invoke () mem0
      = ⟨.noCall, .returned 0 mem0⟩ ∧
    Reachable ((new (raw Unit)).attachContextFn nullInt (some readBase)) ∧
    ((new (raw Unit)).attachContextFn nullInt (some readBase)).valid = true ∧
    ((new (raw Unit)).attachContextFn nullInt (some readBase)).invoke () mem0
      = ⟨.noCall, .returned 0 mem0⟩ :=
  ⟨.attachMember _ _ (.new _), by decide, by decide,
   .attachContextFn _ _ (.new _), by decide, by decide⟩

/-- C13: for every assignment of the fields, `valid()` is true exactly when at
least one of the four slots is set (contexted-member dispatcher,
context-function dispatcher, member dispatcher, plain function reference), and
changing `_context` or the buffer `_member` does not change the result. -/
theorem valid_iff_slot_set (cb : Callback σ RET ARGS) :
    (cb.valid = true ↔
      cb._contextedMemberCaller.isSome = true ∨ cb._contextFn.isSome = true ∨
        cb._membercaller.isSome = true ∨ cb._p.isSet = true) ∧
    (cb.valid = true ↔ 1 ≤ cb.slotsSet) ∧
    ∀ (context : VoidPtr) (member : MemberBuf σ RET ARGS),
      ({ cb with _context := context, _member := member }).valid = cb.valid := by
  obtain ⟨p, member, mc, cf, cmc, ctx⟩ := cb
  refine ⟨?_, ?_, fun context member1 => ?_⟩
  · simp [valid, or_assoc]
  · simp only [valid, slotsSet, dispatchersSet]
    generalize p.isSet = b
    cases cmc <;> cases cf <;> cases mc <;> cases b <;> simp
  · simp [valid]

/-- The class `Counter` is not the type `int`. -/
theorem int_ne_counter : Int ≠ Counter := by
  intro h
  have hs : ∀ (T : Type), T = Counter → ∀ a b : T, a = b := by
    intro T hT
    subst hT
    intro a b
    rfl
  exact absurd (hs Int h 0 1) (by decide)

/-- C14: `context<TContext>()` does not compare types.  After
`attach(&base, addBase)` with `base` an `int`, `context<Counter>()` returns
the address of `base` as a `Counter*`, not null, although `Counter` is not the
type of the attached context. -/
theorem context_ignores_type :
    Int ≠ Counter ∧
    ((new (raw Int)).attachContextFn base (some addBase)).context Counter = ⟨2⟩ ∧
    ((new (raw Int)).attachContextFn base (some addBase)).context Counter ≠ ⟨0⟩ :=
  ⟨int_ne_counter, rfl, fun h => absurd (congrArg Ptr.addr h) (by decide)⟩

/-- The constructors taking a function, an object and method, or a context,
object and method (pointer and reference versions) give, from any contents
`raw` of the members, the same results as the matching attach on a
default-constructed callback. -/
theorem constructors_others_mirror [Inhabited RET] {TContext TObj : Type}
    (raw : Callback σ RET ARGS) (T : Type) (args : ARGS) (s : σ) :
    (∀ fn : FunctionType σ RET ARGS,
      (newFunction raw fn).valid = ((new raw).attach fn).valid ∧
      (newFunction raw fn).context T = ((new raw).attach fn).context T ∧
      (newFunction raw fn).invoke args s = ((new raw).attach fn).invoke args s) ∧
    (∀ (obj : Ptr TObj) (fn : MemberFnPtr σ RET ARGS TObj),
      newMember raw obj fn = (new raw).attachMember obj fn) ∧
    (∀ (obj : Ref TObj) (fn : MemberFnPtr σ RET ARGS TObj),
      newMemberRef raw obj fn = (new raw).attachMember obj.addressOf fn) ∧
    (∀ (ctx : Ptr TContext) (obj : Ptr TObj)
      (fn : ContextedMemberFnPtr σ RET ARGS TContext TObj),
      newContextedMember raw ctx obj fn = (new raw).attachContextedMember ctx obj fn) ∧
    (∀ (ctx : Ref TContext) (obj : Ref TObj)
      (fn : ContextedMemberFnPtr σ RET ARGS TContext TObj),
      newContextedMemberRef raw ctx obj fn
        = (new raw).attachContextedMember ctx.addressOf obj.addressOf fn) := by
  have h := @attach_others_replace σ RET ARGS _ TContext TObj raw (new raw) T args s
  exact ⟨fun fn => h.1 fn, fun obj fn => h.2.1 obj fn, fun obj fn => h.2.1 obj.addressOf fn,
    fun ctx obj fn => h.2.2 ctx obj fn,
    fun ctx obj fn => h.2.2 ctx.addressOf obj.addressOf fn⟩

/-- C15: the context-function constructors do not mirror `attach` on an Empty
callback, since they run `attach(ctx, fn)` on members that were never
initialised and that overload never writes `_p`.  On storage whose `_p` bytes
hold an old function pointer, `Callback(ctx, addBase)` with a null `ctx` makes
`invoke(4)` call that pointer and return 5, where the same attach on a
default-constructed callback returns 0 without a call; and the reference
version `Callback(base, nullptr)` is `valid()` and calls it too, where the
same attach on a default-constructed callback is not valid and makes no
call. -/
theorem context_constructor_reads_raw_storage :
    (newContextFn stale nullInt (some addBase)).invoke 4 mem0
      = ⟨.function, .returned 5 mem0⟩ ∧
    ((new stale).attachContextFn nullInt (some addBase)).invoke 4 mem0
      = ⟨.noCall, .returned 0 mem0⟩ ∧
    (newContextFnRef stale baseRef none).valid = true ∧
    (newContextFnRef stale baseRef none).invoke 4 mem0 = ⟨.function, .returned 5 mem0⟩ ∧
    ((new stale).attachContextFn baseRef.addressOf none).valid = false ∧
    ((new stale).attachContextFn baseRef.addressOf none).invoke 4 mem0
      = ⟨.noCall, .returned 0 mem0⟩ := by
  decide

/-- C16: `invoke` can call through `_p` while it holds an object reference.
After `attach(&c, &Counter::bump)` and then `attach(ctx, readBase)` with a null
`ctx`, a state reachable from a default-constructed callback, `_p` still holds
the address of `c`, and `invoke()` takes the plain-function return
`_p.function(args...)`: a call through the bits of an object pointer.  A
single `attach(ctx, &c, &Counter::bumpBy)` with a null `ctx` does the same:
the contexted-member test fails on the null context and `invoke()` falls to
`_p.function(args...)` with `_p` holding the address of `c`. -/
theorem invoke_calls_object_as_function :
    (Reachable (((new (raw Unit)).attachMember c (some Counter.bump)).attachContextFn nullInt
      (some readBase)) ∧
    (((new (raw Unit)).attachMember c (some Counter.bump)).attachContextFn nullInt
      (some readBase))._p = .object 1 ∧
    (((new (raw Unit)).attachMember c (some Counter.bump)).attachContextFn nullInt
      (some readBase)).invoke () mem0 = ⟨.function, .undefined⟩) ∧
    (Reachable ((new (raw Unit)).attachContextedMember nullInt c (some Counter.bumpBy)) ∧
    ((new (raw Unit)).attachContextedMember nullInt c (some Counter.bumpBy))._p = .object 1 ∧
    ((new (raw Unit)).attachContextedMember nullInt c (some Counter.bumpBy)).invoke () mem0
      = ⟨.function, .undefined⟩) :=
  ⟨⟨.attachContextFn _ _ (.attachMember _ _ (.new _)), rfl, by decide⟩,
   ⟨.attachContextedMember _ _ _ (.new _), rfl, by decide⟩⟩

/-- Each `attach` overload and `clear()` leaves at most one of the three
dispatchers set, from any field values. -/
theorem step_dispatchersSet {cb cb1 : Callback σ RET ARGS} (h : Step cb cb1) :
    cb1.dispatchersSet ≤ 1 := by
  cases h with
  | attach fn => simp [dispatchersSet, attach]
  | attachContextFn ctx fn =>
    simp only [dispatchersSet, attachContextFn]
    cases fn <;> simp
  | attachMember obj fn => simp [dispatchersSet, attachMember]
  | attachContextedMember ctx obj fn => simp [dispatchersSet, attachContextedMember]
  | clear => simp [dispatchersSet, clear]

/-- Each constructor is one `attach` or `clear()` on the raw members. -/
theorem constructed_step {cb : Callback σ RET ARGS} (h : Constructed cb) :
    ∃ raw, Step raw cb := by
  cases h with
  | new raw => exact ⟨raw, .clear raw⟩
  | newFunction raw fn => exact ⟨raw, .attach raw fn⟩
  | newContextFn raw ctx fn => exact ⟨raw, .attachContextFn raw ctx fn⟩
  | newContextFnRef raw ctx fn => exact ⟨raw, .attachContextFn raw ctx.addressOf fn⟩
  | newMember raw obj fn => exact ⟨raw, .attachMember raw obj fn⟩
  | newMemberRef raw obj fn => exact ⟨raw, .attachMember raw obj.addressOf fn⟩
  | newContextedMember raw ctx obj fn => exact ⟨raw, .attachContextedMember raw ctx obj fn⟩
  | newContextedMemberRef raw ctx obj fn =>
    exact ⟨raw, .attachContextedMember raw ctx.addressOf obj.addressOf fn⟩

/-- C17: starting from any field values, after any constructor, any `attach`
overload with any arguments, or `clear()`, at most one of the three
dispatchers (contexted-member, context-function, member) is non-null; hence
the same holds in every state built by a constructor followed by any sequence
of `attach` and `clear` calls. -/
theorem single_dispatcher_after_any_call :
    (∀ cb cb1 : Callback σ RET ARGS, Step cb cb1 → cb1.dispatchersSet ≤ 1) ∧
    (∀ cb : Callback σ RET ARGS, Constructed cb → cb.dispatchersSet ≤ 1) ∧
    (∀ cb : Callback σ RET ARGS, Built cb → cb.dispatchersSet ≤ 1) := by
  refine ⟨fun cb cb1 h => step_dispatchersSet h, fun cb h => ?_, fun cb h => ?_⟩
  · obtain ⟨raw, hstep⟩ := constructed_step h
    exact step_dispatchersSet hstep
  · cases h with
    | constructed hc =>
      obtain ⟨raw, hstep⟩ := constructed_step hc
      exact step_dispatchersSet hstep
    | step _ hstep => exact step_dispatchersSet hstep

/-- C17, instance: from fields with all three dispatchers set,
`attach(&base, readBase)` leaves one; so does the constructor
`Callback(base, readBase)` run on those fields, and a `clear()` after it
leaves none. -/
theorem single_dispatcher_after_any_call_allSet :
    (allSet 2 (.object 1)).dispatchersSet = 3 ∧
    ((allSet 2 (.object 1)).attachContextFn base (some readBase)).dispatchersSet ≤ 1 ∧
    (newContextFnRef (allSet 2 (.object 1)) baseRef (some readBase)).dispatchersSet ≤ 1 ∧
    (newContextFnRef (allSet 2 (.object 1)) baseRef (some readBase)).clear.dispatchersSet
      ≤ 1 :=
  ⟨by decide,
   single_dispatcher_after_any_call.1 _ _ (.attachContextFn _ base (some readBase)),
   single_dispatcher_after_any_call.2.1 _ (.newContextFnRef _ baseRef (some readBase)),
   single_dispatcher_after_any_call.2.2 _
     (.step (.constructed (.newContextFnRef _ baseRef (some readBase))) (.clear _))⟩

end CallbackModel
